import Mathlib

/-!
Shallow embedding of the Member model of clubWebsite/database/models.py.

Timestamps are modelled as integer seconds (UTC); the clock, the random
bytes drawn by the token generator, and the outcome of the notification
send are explicit inputs. Nullable columns are Option. Code paths that can
raise a Python exception return Except PyErr.
-/

/-- Member record, mirroring the columns of the members table. -/
structure Member where
  student_id : Nat
  email : String
  first_name : String
  last_name : String
  time_added : Option Int
  confirmation_token : Option String
  confirmation_time : Option Int
  is_confirmed : Bool
deriving DecidableEq

/-- Python exceptions the modelled code can raise. -/
inductive PyErr where
  | typeError
  | attributeError
deriving DecidableEq

/-- The persistence store: the rows of the members table. -/
abbrev Store := List Member

def already_confirmed_msg : String := "Your membership has already been confirmed"

def not_sent_msg : String := "Your confirmation email has not been sent out, please wait"

def expired_msg : String := "Confirmation link expired, please try again"

def confirmed_msg : String := "Your membership has been confirmed"

def invalid_msg : String := "Confirmation token invalid, please try again"

/-- The base64url alphabet used by base64.urlsafe_b64encode. -/
def b64urlChars : List Char :=
  ['A', 'B', 'C', 'D', 'E', 'F', 'G', 'H', 'I', 'J', 'K', 'L', 'M',
   'N', 'O', 'P', 'Q', 'R', 'S', 'T', 'U', 'V', 'W', 'X', 'Y', 'Z',
   'a', 'b', 'c', 'd', 'e', 'f', 'g', 'h', 'i', 'j', 'k', 'l', 'm',
   'n', 'o', 'p', 'q', 'r', 's', 't', 'u', 'v', 'w', 'x', 'y', 'z',
   '0', '1', '2', '3', '4', '5', '6', '7', '8', '9', '-', '_']

def sextetChar (s : Nat) : Char := b64urlChars.getD (s % 64) 'A'

/-- Regroup a byte sequence into 6-bit groups as base64 does; a final group
of one or two bytes yields two or three sextets (the unpadded encoding that
token_urlsafe produces after stripping the padding). -/
def toSextets : List Nat → List Nat
  | b1 :: b2 :: b3 :: rest =>
      b1 / 4 :: ((b1 % 4) * 16 + b2 / 16) :: ((b2 % 16) * 4 + b3 / 64) :: b3 % 64 ::
        toSextets rest
  | [b1, b2] => [b1 / 4, (b1 % 4) * 16 + b2 / 16, (b2 % 16) * 4]
  | [b1] => [b1 / 4, (b1 % 4) * 16]
  | [] => []

/-- secrets.token_urlsafe modelled as a function of the random bytes it
draws: base64url encoding without padding. -/
def token_urlsafe (bytes : List Nat) : String :=
  String.mk ((toSextets bytes).map sextetChar)

def isUrlSafeChar (c : Char) : Bool := c.isAlpha || c.isDigit || c == '-' || c == '_'

/-- Member.query.get(student_id): primary-key lookup. -/
def findMember (s : Store) (sid : Nat) : Option Member :=
  s.find? (fun m => decide (m.student_id = sid))

/-- db.session.commit after mutating the member with the given id. -/
def updateStore (s : Store) (sid : Nat) (m' : Member) : Store :=
  s.map (fun x => if x.student_id = sid then m' else x)

/-- Member.get_token_expire_time: confirmation_time + timedelta(hours=expire_delta).
Adding a timedelta to None raises TypeError. -/
def get_token_expire_time (m : Member) (expire_delta : Nat) : Except PyErr Int :=
  match m.confirmation_time with
  | none => .error .typeError
  | some t => .ok (t + (expire_delta : Int) * 3600)

/-- Member.has_token_expired: time_left = (expire_time - utcnow).total_seconds();
return time_left <= 0. -/
def has_token_expired (m : Member) (expire_delta : Nat) (now : Int) : Except PyErr Bool :=
  match get_token_expire_time m expire_delta with
  | .error e => .error e
  | .ok expire_time => .ok (decide (expire_time - now ≤ 0))

/-- Python truthiness of `not self.confirmation_token`: None and the empty
string are both falsy. -/
def tokenFalsy (m : Member) : Bool :=
  match m.confirmation_token with
  | none => true
  | some s => decide (s = "")

/-- Member.generate_confirmation_token, the mutation on the member itself:
a fresh token from 32 random bytes and confirmation_time = utcnow. -/
def generate_confirmation_token (m : Member) (bytes : List Nat) (now : Int) : Member :=
  { m with confirmation_token := some (token_urlsafe bytes),
           confirmation_time := some now }

/-- generate_confirmation_token together with the session commit that
persists it; returns the new store, the member, and the token. -/
def generateS (s : Store) (m : Member) (bytes : List Nat) (now : Int) :
    Store × Member × String :=
  let m' := generate_confirmation_token m bytes now
  (updateStore s m.student_id m', m', token_urlsafe bytes)

/-- Member.confirm: the confirmation state machine. Returns the store after
any commit, the member, and the (success, message) pair. -/
def confirm (s : Store) (m : Member) (confirmation_token : String)
    (expire_delta : Nat) (now : Int) :
    Except PyErr (Store × Member × Bool × String) :=
  if m.is_confirmed then .ok (s, m, true, already_confirmed_msg)
  else if tokenFalsy m then .ok (s, m, false, not_sent_msg)
  else
    match has_token_expired m expire_delta now with
    | .error e => .error e
    | .ok true => .ok (s, m, false, expired_msg)
    | .ok false =>
      if m.confirmation_token = some confirmation_token then
        .ok (updateStore s m.student_id { m with is_confirmed := true },
             { m with is_confirmed := true }, true, confirmed_msg)
      else .ok (s, m, false, invalid_msg)

/-- The success flag of a confirm call that did not raise. -/
def confirmSuccess : Except PyErr (Store × Member × Bool × String) → Option Bool
  | .ok r => some r.2.2.1
  | .error _ => none

/-- Outcome of the SendGrid send call: either it succeeds, or it raises an
exception that may or may not carry a message attribute. -/
structure SendOutcome where
  ok : Bool
  excHasMessage : Bool
deriving DecidableEq

/-- Member.__init__ together with the column defaults applied on insert. -/
def newMember (sid : Nat) (email first_name last_name : String) (now : Int) : Member :=
  { student_id := sid, email := email, first_name := first_name,
    last_name := last_name, time_added := some now,
    confirmation_token := none, confirmation_time := none, is_confirmed := false }

/-- Member.get_or_create: fetch by primary key, otherwise create and commit
the record, generate a token, and attempt the notification send. Returns the
final store, the returned value (None on a handled send failure, an
exception when the handler itself raises), and whether a send was attempted.
On a send failure, the handler runs print(e.message); an exception without a
message attribute makes that line raise AttributeError. The store is the
same in every branch: the record and its token were already committed. -/
def get_or_create (s : Store) (student_id : Nat) (email first_name last_name : String)
    (bytes : List Nat) (now : Int) (send : SendOutcome) :
    Store × Except PyErr (Option Member) × Bool :=
  match findMember s student_id with
  | some current_member => (s, .ok (some current_member), false)
  | none =>
    let g := generateS (s ++ [newMember student_id email first_name last_name now])
      (newMember student_id email first_name last_name now) bytes now
    (g.1,
      if send.ok then (Except.ok (some g.2.1), true)
      else if send.excHasMessage then (Except.ok none, true)
      else (Except.error PyErr.attributeError, true))

/-- The scan phase of Member.prune_expired: the ids of unconfirmed members
whose token has expired, raising whenever has_token_expired does. -/
def collectExpiredIds : Store → Nat → Int → Except PyErr (List Nat)
  | [], _, _ => .ok []
  | m :: rest, expire_delta, now =>
    if m.is_confirmed then collectExpiredIds rest expire_delta now
    else
      match has_token_expired m expire_delta now with
      | .error e => .error e
      | .ok true =>
          (collectExpiredIds rest expire_delta now).map (fun ids => m.student_id :: ids)
      | .ok false => collectExpiredIds rest expire_delta now

/-- Member.prune_expired: after the scan the source calls
Member.query.delete(delete_ids). Query.delete takes only a
synchronize_session strategy argument, and looking the id list up in the
strategy table raises TypeError (a list is unhashable) before any row is
deleted, so the call never reaches the commit. -/
def prune_expired (s : Store) (expire_delta : Nat) (now : Int) : Except PyErr Store :=
  match collectExpiredIds s expire_delta now with
  | .error e => .error e
  | .ok _delete_ids => .error .typeError

/-- An operation applied to a single member after its creation. -/
inductive MOp where
  | confirmOp (token : String) (expire_delta : Nat) (now : Int)
  | generateOp (bytes : List Nat) (now : Int)

/-- Apply one operation to a member, keeping the resulting member record. -/
def applyOp (m : Member) : MOp → Member
  | .confirmOp tok d now =>
    match confirm [] m tok d now with
    | .ok r => r.2.1
    | .error _ => m
  | .generateOp bytes now => generate_confirmation_token m bytes now

/-- Run a sequence of operations on a member. -/
def runOps (m : Member) : List MOp → Member
  | [] => m
  | op :: rest => runOps (applyOp m op) rest

def isGen : MOp → Bool
  | .generateOp _ _ => true
  | .confirmOp _ _ _ => false

/-- A confirmed member used as a concrete instance. -/
def mConfirmed : Member :=
  { student_id := 1, email := "a", first_name := "b", last_name := "c",
    time_added := some 0, confirmation_token := some "T",
    confirmation_time := some 0, is_confirmed := true }

/-- An unconfirmed member with a token issued at time 0. -/
def mPending : Member :=
  { student_id := 2, email := "a", first_name := "b", last_name := "c",
    time_added := some 0, confirmation_token := some "T",
    confirmation_time := some 0, is_confirmed := false }

/-- An unconfirmed member with a token issued at time 0, for the prune store. -/
def mExpired : Member :=
  { student_id := 900111111, email := "a", first_name := "b", last_name := "c",
    time_added := some 0, confirmation_token := some "T",
    confirmation_time := some 0, is_confirmed := false }

/-- The record that get_or_create persists for student 900222222 at time 0
when the random bytes are 32 zero bytes. -/
def c7_member : Member :=
  { student_id := 900222222, email := "e@x", first_name := "F", last_name := "L",
    time_added := some 0,
    confirmation_token := some (token_urlsafe (List.replicate 32 0)),
    confirmation_time := some 0, is_confirmed := false }

/-! Theorems. -/

/-- Claim C1: confirm evaluates its cases in this order: an already-confirmed
member short-circuits to success regardless of the supplied token; then a
member whose token was never generated fails with the not-sent message; then
an expired token fails with the expired message even when the supplied token
matches; then an exact match sets is_confirmed, persists it, and succeeds
with the confirmed message; otherwise it fails with the invalid-token
message. Stated for members whose stored token, when present, is a nonempty
string, as every generated token is. -/
theorem confirm_case_order (s : Store) (m : Member) (tok : String) (d : Nat) (now : Int)
    (hne : m.confirmation_token ≠ some "") :
    (m.is_confirmed = true →
      confirm s m tok d now = .ok (s, m, true, already_confirmed_msg)) ∧
    (m.is_confirmed = false → m.confirmation_token = none →
      confirm s m tok d now = .ok (s, m, false, not_sent_msg)) ∧
    (∀ ct, m.is_confirmed = false → m.confirmation_token = some ct →
      has_token_expired m d now = .ok true →
      confirm s m tok d now = .ok (s, m, false, expired_msg)) ∧
    (m.is_confirmed = false → m.confirmation_token = some tok →
      has_token_expired m d now = .ok false →
      confirm s m tok d now =
        .ok (updateStore s m.student_id { m with is_confirmed := true },
             { m with is_confirmed := true }, true, confirmed_msg)) ∧
    (∀ ct, m.is_confirmed = false → m.confirmation_token = some ct → ct ≠ tok →
      has_token_expired m d now = .ok false →
      confirm s m tok d now = .ok (s, m, false, invalid_msg)) := by
  refine ⟨?_, ?_, ?_, ?_, ?_⟩
  · intro hc
    simp [confirm, hc]
  · intro hc ht
    simp [confirm, hc, tokenFalsy, ht]
  · intro ct hc ht hexp
    have hct : ct ≠ "" := fun h => hne (h ▸ ht)
    simp [confirm, hc, tokenFalsy, ht, hct, hexp]
  · intro hc ht hexp
    have hct : tok ≠ "" := fun h => hne (h ▸ ht)
    simp [confirm, hc, tokenFalsy, ht, hct, hexp]
  · intro ct hc ht hmm hexp
    have hct : ct ≠ "" := fun h => hne (h ▸ ht)
    simp [confirm, hc, tokenFalsy, ht, hct, hexp, hmm]

/-- Claim C1 witness: an already-confirmed member short-circuits. -/
theorem confirm_case_order_witness :
    confirm [] mConfirmed "x" 48 0 = .ok ([], mConfirmed, true, already_confirmed_msg) :=
  (confirm_case_order [] mConfirmed "x" 48 0 (by decide)).1 rfl

/-- Claim C3: get_or_create on a student_id already present returns the
stored record unchanged, does not mutate the store, and attempts no
notification send. -/
theorem get_or_create_idempotent (s : Store) (sid : Nat)
    (email first_name last_name : String) (bytes : List Nat) (now : Int)
    (send : SendOutcome) (m : Member) (h : findMember s sid = some m) :
    get_or_create s sid email first_name last_name bytes now send =
      (s, .ok (some m), false) := by
  simp [get_or_create, h]

/-- Claim C3 witness: re-registering student 1 returns the stored record. -/
theorem get_or_create_idempotent_witness :
    get_or_create [mConfirmed] 1 "z" "z" "z" [] 99 ⟨true, true⟩ =
      ([mConfirmed], .ok (some mConfirmed), false) :=
  get_or_create_idempotent [mConfirmed] 1 "z" "z" "z" [] 99 ⟨true, true⟩ mConfirmed rfl

/-- Claim C4: for a member with an issue timestamp, the expiry time is the
pure function confirmation_time + expire_delta hours, has_token_expired is
true iff now has reached that time, a token issued exactly expire_delta
hours ago counts as expired, and one issued a second later does not. -/
theorem has_token_expired_boundary (m : Member) (d : Nat) (now t : Int)
    (h : m.confirmation_time = some t) :
    get_token_expire_time m d = .ok (t + (d : Int) * 3600) ∧
    (has_token_expired m d now = .ok true ↔ t + (d : Int) * 3600 ≤ now) ∧
    (t = now - (d : Int) * 3600 → has_token_expired m d now = .ok true) ∧
    (t = now - (d : Int) * 3600 + 1 → has_token_expired m d now = .ok false) := by
  have hexp : has_token_expired m d now = .ok (decide (t + (d : Int) * 3600 - now ≤ 0)) := by
    simp [has_token_expired, get_token_expire_time, h]
  refine ⟨by simp [get_token_expire_time, h], ?_, ?_, ?_⟩
  · rw [hexp]
    simp only [Except.ok.injEq, decide_eq_true_eq]
    omega
  · intro ht
    rw [hexp]
    simp only [Except.ok.injEq, decide_eq_true_eq]
    omega
  · intro ht
    rw [hexp]
    simp only [Except.ok.injEq, decide_eq_false_iff_not]
    omega

/-- Claim C4 witness: the exact boundary counts as expired. -/
theorem has_token_expired_boundary_witness :
    has_token_expired mPending 48 (48 * 3600) = .ok true :=
  (has_token_expired_boundary mPending 48 (48 * 3600) 0 rfl).2.2.1 (by decide)

/-- Claim C2: at a store holding one unconfirmed member whose token is long
expired, the scan does find that member, but prune_expired then raises from
Member.query.delete(delete_ids) instead of deleting it, because the id list
is passed where Query.delete expects a synchronize_session strategy. -/
theorem prune_expired_raises :
    collectExpiredIds [mExpired] 48 (3600 * 200) = .ok [900111111] ∧
    prune_expired [mExpired] 48 (3600 * 200) = .error .typeError := by
  constructor <;> rfl

/-- A member with no token and not confirmed is left unchanged by any
sequence of token-free operations. -/
theorem runOps_nogen (m : Member) (ops : List MOp)
    (h1 : m.confirmation_token = none) (h2 : m.is_confirmed = false)
    (h : ∀ op ∈ ops, isGen op = false) :
    runOps m ops = m := by
  induction ops with
  | nil => rfl
  | cons op rest ih =>
    have hop : isGen op = false := h op (List.mem_cons_self op rest)
    have happ : applyOp m op = m := by
      cases op with
      | confirmOp tok d now =>
        simp [applyOp, confirm, h2, tokenFalsy, h1]
      | generateOp bytes now => simp [isGen] at hop
    rw [runOps, happ]
    exact ih (fun o ho => h o (List.mem_cons_of_mem op ho))

/-- Claim C5: a member created by the constructor on which
generate_confirmation_token was never applied has a null confirmation_token,
and confirm on it fails with the not-sent message for every supplied token,
leaving store and member unchanged. -/
theorem confirm_never_generated (sid : Nat) (email first_name last_name : String)
    (t0 : Int) (ops : List MOp) (h : ∀ op ∈ ops, isGen op = false)
    (st : Store) (tok : String) (d : Nat) (now : Int) :
    (runOps (newMember sid email first_name last_name t0) ops).confirmation_token = none ∧
    confirm st (runOps (newMember sid email first_name last_name t0) ops) tok d now =
      .ok (st, runOps (newMember sid email first_name last_name t0) ops,
           false, not_sent_msg) := by
  have hrun : runOps (newMember sid email first_name last_name t0) ops =
      newMember sid email first_name last_name t0 :=
    runOps_nogen _ ops rfl rfl h
  rw [hrun]
  exact ⟨rfl, by simp [confirm, newMember, tokenFalsy]⟩

/-- Claim C5 witness: after a failed confirm attempt and no token
generation, any further confirm still fails with the not-sent message. -/
theorem confirm_never_generated_witness :
    confirm [] (runOps (newMember 3 "a" "b" "c" 0) [MOp.confirmOp "x" 48 5]) "y" 48 9 =
      .ok ([], runOps (newMember 3 "a" "b" "c" 0) [MOp.confirmOp "x" 48 5],
           false, not_sent_msg) :=
  (confirm_never_generated 3 "a" "b" "c" 0 [MOp.confirmOp "x" 48 5]
    (by intro op hop; simp at hop; subst hop; rfl) [] "y" 48 9).2

/-- Exhaustive description of the outcomes of a confirm call that returned. -/
theorem confirm_ok_cases (s : Store) (m : Member) (tok : String) (d : Nat) (now : Int)
    (s' : Store) (m' : Member) (b : Bool) (msg : String)
    (h : confirm s m tok d now = .ok (s', m', b, msg)) :
    (m.is_confirmed = true ∧ s' = s ∧ m' = m ∧ b = true ∧ msg = already_confirmed_msg) ∨
    (m.is_confirmed = false ∧ s' = s ∧ m' = m ∧ b = false ∧
      (msg = not_sent_msg ∨ msg = expired_msg ∨ msg = invalid_msg)) ∨
    (m.is_confirmed = false ∧ m.confirmation_token = some tok ∧ b = true ∧
      msg = confirmed_msg ∧ m' = { m with is_confirmed := true } ∧
      s' = updateStore s m.student_id m') := by
  unfold confirm at h
  by_cases hc : m.is_confirmed = true
  · rw [if_pos hc] at h
    simp only [Except.ok.injEq, Prod.mk.injEq] at h
    obtain ⟨hs, hm, hb, hmsg⟩ := h
    exact Or.inl ⟨hc, hs.symm, hm.symm, hb.symm, hmsg.symm⟩
  · have hc' : m.is_confirmed = false := by simpa using hc
    rw [hc'] at h
    simp only [Bool.false_eq_true, if_false] at h
    by_cases hf : tokenFalsy m = true
    · rw [if_pos hf] at h
      simp only [Except.ok.injEq, Prod.mk.injEq] at h
      obtain ⟨hs, hm, hb, hmsg⟩ := h
      exact Or.inr (Or.inl ⟨hc', hs.symm, hm.symm, hb.symm, Or.inl hmsg.symm⟩)
    · rw [if_neg hf] at h
      cases hex : has_token_expired m d now with
      | error e => rw [hex] at h; exact absurd h (by simp)
      | ok bb =>
        rw [hex] at h
        cases bb with
        | true =>
          simp only [Except.ok.injEq, Prod.mk.injEq] at h
          obtain ⟨hs, hm, hb, hmsg⟩ := h
          exact Or.inr (Or.inl ⟨hc', hs.symm, hm.symm, hb.symm, Or.inr (Or.inl hmsg.symm)⟩)
        | false =>
          by_cases hmt : m.confirmation_token = some tok
          · rw [if_pos hmt] at h
            simp only [Except.ok.injEq, Prod.mk.injEq] at h
            obtain ⟨hs, hm, hb, hmsg⟩ := h
            exact Or.inr (Or.inr ⟨hc', hmt, hb.symm, hmsg.symm, hm.symm,
              by rw [← hs, ← hm]⟩)
          · rw [if_neg hmt] at h
            simp only [Except.ok.injEq, Prod.mk.injEq] at h
            obtain ⟨hs, hm, hb, hmsg⟩ := h
            exact Or.inr (Or.inl ⟨hc', hs.symm, hm.symm, hb.symm,
              Or.inr (Or.inr hmsg.symm)⟩)

/-- Claim C6: is_confirmed is never reset from true to false by any registry
operation: generate_confirmation_token leaves the flag unchanged; confirm
leaves an already-confirmed member untouched and only ever moves the flag
from false to true, in the successful confirmed-message branch; and
get_or_create keeps every existing record in the store as it is. -/
theorem is_confirmed_monotone (m : Member) :
    (∀ bytes now, (generate_confirmation_token m bytes now).is_confirmed = m.is_confirmed) ∧
    (∀ s tok d now s' m' b msg, confirm s m tok d now = .ok (s', m', b, msg) →
      (m.is_confirmed = true → m' = m ∧ s' = s) ∧
      (m'.is_confirmed = true → m.is_confirmed = true ∨
        (m.is_confirmed = false ∧ b = true ∧ msg = confirmed_msg ∧
          m' = { m with is_confirmed := true }))) ∧
    (∀ s sid email first_name last_name bytes now send, m ∈ s →
      m ∈ (get_or_create s sid email first_name last_name bytes now send).1) := by
  refine ⟨fun bytes now => rfl, ?_, ?_⟩
  · intro s tok d now s' m' b msg h
    rcases confirm_ok_cases s m tok d now s' m' b msg h with
      ⟨hc, hs, hm, hb, hmsg⟩ | ⟨hc, hs, hm, hb, hmsg⟩ | ⟨hc, hmt, hb, hmsg, hm, hs⟩
    · exact ⟨fun _ => ⟨hm, hs⟩, fun _ => Or.inl hc⟩
    · exact ⟨fun hct => absurd hct (by rw [hc]; simp), fun hct => Or.inl (hm ▸ hct)⟩
    · refine ⟨fun hct => absurd hct (by rw [hc]; simp), fun _ => ?_⟩
      exact Or.inr ⟨hc, hb, hmsg, hm⟩
  · intro s sid email first_name last_name bytes now send hm
    unfold get_or_create
    cases hfind : findMember s sid with
    | some c => simpa using hm
    | none =>
      have hid : m.student_id ≠ sid := by
        intro he
        have hnone := List.find?_eq_none.mp hfind m hm
        simp [he] at hnone
      simp only [generateS, generate_confirmation_token, updateStore, newMember]
      have hmem : m ∈ s ++ [newMember sid email first_name last_name now] :=
        List.mem_append_left _ hm
      have hfix : (fun x : Member =>
          if x.student_id = sid then
            generate_confirmation_token (newMember sid email first_name last_name now)
              bytes now
          else x) m = m := by
        simp [hid]
      have : m ∈ (s ++ [newMember sid email first_name last_name now]).map
          (fun x : Member =>
            if x.student_id = sid then
              generate_confirmation_token (newMember sid email first_name last_name now)
                bytes now
            else x) := hfix ▸ List.mem_map_of_mem _ hmem
      simpa [generateS, updateStore, generate_confirmation_token, newMember] using this

/-- Claim C6 witness: an existing record survives a new registration. -/
theorem is_confirmed_monotone_witness :
    mConfirmed ∈ (get_or_create [mConfirmed] 7 "e" "f" "l" [] 0 ⟨true, true⟩).1 :=
  (is_confirmed_monotone mConfirmed).2.2 [mConfirmed] 7 "e" "f" "l" [] 0 ⟨true, true⟩
    (by simp)

/-- Claim C9: confirm mutates nothing on the already-confirmed branch and on
every failure branch, and on the one successful branch it changes only
is_confirmed and commits exactly that member to the store. -/
theorem confirm_frame (s : Store) (m : Member) (tok : String) (d : Nat) (now : Int)
    (s' : Store) (m' : Member) (b : Bool) (msg : String)
    (h : confirm s m tok d now = .ok (s', m', b, msg)) :
    (b = false → s' = s ∧ m' = m) ∧
    (m.is_confirmed = true → s' = s ∧ m' = m) ∧
    (b = true → m.is_confirmed = false →
      m' = { m with is_confirmed := true } ∧ s' = updateStore s m.student_id m' ∧
      msg = confirmed_msg ∧ m'.student_id = m.student_id ∧ m'.email = m.email ∧
      m'.first_name = m.first_name ∧ m'.last_name = m.last_name ∧
      m'.time_added = m.time_added ∧ m'.confirmation_token = m.confirmation_token ∧
      m'.confirmation_time = m.confirmation_time) := by
  rcases confirm_ok_cases s m tok d now s' m' b msg h with
    ⟨hc, hs, hm, hb, hmsg⟩ | ⟨hc, hs, hm, hb, hmsg⟩ | ⟨hc, hmt, hb, hmsg, hm, hs⟩
  · refine ⟨fun hbf => ?_, fun _ => ⟨hs, hm⟩, fun _ hcf => ?_⟩
    · rw [hb] at hbf
      exact absurd hbf (by simp)
    · rw [hc] at hcf
      exact absurd hcf (by simp)
  · refine ⟨fun _ => ⟨hs, hm⟩, fun hct => ?_, fun hbt _ => ?_⟩
    · rw [hc] at hct
      exact absurd hct (by simp)
    · rw [hb] at hbt
      exact absurd hbt (by simp)
  · refine ⟨fun hbf => ?_, fun hct => ?_, fun _ _ => ?_⟩
    · rw [hb] at hbf
      exact absurd hbf (by simp)
    · rw [hc] at hct
      exact absurd hct (by simp)
    · subst hm
      exact ⟨rfl, hs, hmsg, rfl, rfl, rfl, rfl, rfl, rfl, rfl⟩

/-- Claim C9 witness: a mismatched token leaves store and member unchanged. -/
theorem confirm_frame_witness : ([] : Store) = [] ∧ mPending = mPending :=
  (confirm_frame [] mPending "X" 48 0 [] mPending false invalid_msg rfl).1 rfl

/-- Claim C7: with an empty store and a notification send that fails with an
exception carrying no message attribute, get_or_create raises AttributeError
from its own handler instead of returning None; the new record stays
persisted in the store in both failure shapes, and None is returned only
when the exception happens to carry a message attribute. -/
theorem get_or_create_send_failure :
    get_or_create [] 900222222 "e@x" "F" "L" (List.replicate 32 0) 0 ⟨false, false⟩ =
      ([c7_member], .error .attributeError, true) ∧
    get_or_create [] 900222222 "e@x" "F" "L" (List.replicate 32 0) 0 ⟨false, true⟩ =
      ([c7_member], .ok none, true) := by
  constructor <;> rfl

/-- Every position of the base64url alphabet holds a URL-safe character. -/
theorem b64urlChars_safe : ∀ i : Fin 64, isUrlSafeChar (b64urlChars.getD i.val 'A') = true := by
  decide

/-- Every sextet maps to a URL-safe character. -/
theorem sextetChar_safe (n : Nat) : isUrlSafeChar (sextetChar n) = true := by
  have h : n % 64 < 64 := Nat.mod_lt _ (by decide)
  simpa [sextetChar] using b64urlChars_safe ⟨n % 64, h⟩

/-- Length of the sextet regrouping. -/
theorem toSextets_length : ∀ l : List Nat, (toSextets l).length = (4 * l.length + 2) / 3
  | [] => rfl
  | [_] => by simp [toSextets]
  | [_, _] => by simp [toSextets]
  | _ :: _ :: _ :: rest => by
      have ih := toSextets_length rest
      simp [toSextets, ih]
      omega

/-- Claim C8: generate_confirmation_token installs the base64url encoding of
the 32 fresh random bytes as the token, stamps confirmation_time with the
current time, persists the mutated member through the commit, produces only
URL-safe characters, encodes the 32 bytes of entropy as a 43-character
token, and invalidates any previous token: on an unconfirmed member, confirm
with any string other than the new token fails. -/
theorem generate_token_spec (m : Member) (bytes : List Nat) (now : Int) :
    (generate_confirmation_token m bytes now).confirmation_token =
      some (token_urlsafe bytes) ∧
    (generate_confirmation_token m bytes now).confirmation_time = some now ∧
    (∀ s, m ∈ s →
      generate_confirmation_token m bytes now ∈ (generateS s m bytes now).1) ∧
    (∀ c ∈ (token_urlsafe bytes).data, isUrlSafeChar c = true) ∧
    (bytes.length = 32 → (token_urlsafe bytes).length = 43) ∧
    (∀ s old d t, m.is_confirmed = false → old ≠ token_urlsafe bytes →
      confirmSuccess (confirm s (generate_confirmation_token m bytes now) old d t) =
        some false) := by
  refine ⟨rfl, rfl, ?_, ?_, ?_, ?_⟩
  · intro s hm
    simp only [generateS, updateStore]
    exact List.mem_map.mpr ⟨m, hm, by simp⟩
  · intro c hc
    simp only [token_urlsafe] at hc
    rcases List.mem_map.mp hc with ⟨n, _, hn⟩
    exact hn ▸ sextetChar_safe n
  · intro h32
    simp [token_urlsafe, String.length, toSextets_length, h32]
  · intro s old d t hconf hne
    by_cases hemp : token_urlsafe bytes = ""
    · simp [confirm, confirmSuccess, generate_confirmation_token, tokenFalsy,
        hconf, hemp]
    · by_cases hexp : now + (d : Int) * 3600 - t ≤ 0
      · simp [confirm, confirmSuccess, generate_confirmation_token, tokenFalsy,
          has_token_expired, get_token_expire_time, hconf, hemp, hexp]
      · simp [confirm, confirmSuccess, generate_confirmation_token, tokenFalsy,
          has_token_expired, get_token_expire_time, hconf, hemp, hexp,
          Ne.symm hne]

/-- Claim C8 witness: 32 zero bytes give a 43-character token, and a stale
token no longer confirms the regenerated member. -/
theorem generate_token_spec_witness :
    (token_urlsafe (List.replicate 32 0)).length = 43 ∧
    confirmSuccess (confirm []
      (generate_confirmation_token mPending (List.replicate 32 0) 0) "x" 48 0) =
      some false :=
  ⟨(generate_token_spec mPending (List.replicate 32 0) 0).2.2.2.2.1 (by decide),
   (generate_token_spec mPending (List.replicate 32 0) 0).2.2.2.2.2 [] "x" 48 0 rfl
     (by decide)⟩

/-- Mapping over an Except preserves whether it is a success. -/
theorem except_map_ok_exists {α β : Type} (f : α → β) (x : Except PyErr α) :
    (∃ y, x.map f = .ok y) ↔ ∃ y, x = .ok y := by
  cases x <;> simp [Except.map]

/-- Claim C10: the expiry computation has the undocumented precondition that
confirmation_time is non-null: get_token_expire_time and has_token_expired
raise TypeError on a member without an issue timestamp, and the scan of
prune_expired, which runs has_token_expired on every unconfirmed member,
completes without raising exactly when every unconfirmed member in the store
has a non-null confirmation_time. -/
theorem expiry_requires_timestamp :
    (∀ m d, (m : Member).confirmation_time = none →
      get_token_expire_time m d = .error .typeError) ∧
    (∀ m d now, (m : Member).confirmation_time = none →
      has_token_expired m d now = .error .typeError) ∧
    (∀ s d now, (∃ ids, collectExpiredIds s d now = .ok ids) ↔
      ∀ m ∈ (s : Store), m.is_confirmed = false → m.confirmation_time ≠ none) := by
  refine ⟨?_, ?_, ?_⟩
  · intro m d h
    simp [get_token_expire_time, h]
  · intro m d now h
    simp [has_token_expired, get_token_expire_time, h]
  · intro s d now
    induction s with
    | nil => simp [collectExpiredIds]
    | cons m rest ih =>
      by_cases hc : m.is_confirmed = true
      · have hstep : collectExpiredIds (m :: rest) d now = collectExpiredIds rest d now := by
          simp [collectExpiredIds, hc]
        rw [hstep]
        simp only [List.forall_mem_cons, hc]
        simp [ih]
      · have hc' : m.is_confirmed = false := by simpa using hc
        cases ht : m.confirmation_time with
        | none =>
          have hstep : collectExpiredIds (m :: rest) d now = .error .typeError := by
            simp [collectExpiredIds, hc', has_token_expired, get_token_expire_time, ht]
          rw [hstep]
          simp only [List.forall_mem_cons, hc', ht]
          simp
        | some t =>
          have hexp : has_token_expired m d now =
              .ok (decide (t + (d : Int) * 3600 - now ≤ 0)) := by
            simp [has_token_expired, get_token_expire_time, ht]
          cases hb : decide (t + (d : Int) * 3600 - now ≤ 0) with
          | true =>
            have hstep : collectExpiredIds (m :: rest) d now =
                (collectExpiredIds rest d now).map (fun ids => m.student_id :: ids) := by
              rw [hb] at hexp
              simp [collectExpiredIds, hc', hexp]
            rw [hstep]
            rw [except_map_ok_exists]
            simp only [List.forall_mem_cons, hc', ht]
            simp [ih]
          | false =>
            have hstep : collectExpiredIds (m :: rest) d now =
                collectExpiredIds rest d now := by
              rw [hb] at hexp
              simp [collectExpiredIds, hc', hexp]
            rw [hstep]
            simp only [List.forall_mem_cons, hc', ht]
            simp [ih]

/-- Claim C10 witness: a fresh member with no issue timestamp makes the
expiry computation raise TypeError. -/
theorem expiry_requires_timestamp_witness :
    get_token_expire_time (newMember 4 "a" "b" "c" 0) 48 = .error .typeError :=
  expiry_requires_timestamp.1 (newMember 4 "a" "b" "c" 0) 48 rfl
